import Mathlib

/-!
Shallow embedding of `leetcodeprofiletracker/leetcodeprofile.py`.

Python values flowing through the program (decoded JSON payloads, the
fields of the per-user record, the arguments of `validate_username`) are
modelled by the `Json` type below.  Python exceptions that the program
raises or catches are modelled by `PyExn`.  Fallible Python code is
modelled in `Except PyExn`.

The remote API (`LeetcodeWrapper._request`, reached through
`get_profile` / `get_badges` / `get_solved`) is the external collaborator:
it is modelled by an environment `env : String → Resource → Except String Json`
giving, for a username and one of the three endpoints, either the decoded
JSON payload or the message of the `APIError` that `_request` raises.
-/

namespace LeetProfile

/-- Decoded JSON / Python values.  `obj` models a Python dict as an
association list with distinct keys (as produced by `response.json()`). -/
inductive Json where
  | null
  | bool (b : Bool)
  | num (n : Int)
  | str (s : String)
  | arr (items : List Json)
  | obj (fields : List (String × Json))

/-- The Python exceptions that can escape the functions under study:
the program's own `APIError` and `ValidationError`, plus the built-in
`AttributeError` (calling `.get` on a non-dict) and `TypeError`
(comparing or joining incompatible types). -/
inductive PyExn where
  | apiError (msg : String)
  | validationError (msg : String)
  | attributeError
  | typeError

/-- A user record, i.e. the `user_data` Python dict built by
`fetch_user_data`: an ordered association list of field name / value. -/
abbrev Dict := List (String × Json)

/-- The three remote lookups issued per username. -/
inductive Resource where
  | profile
  | badges
  | solved

/-- Python `bool(b)` as an int (`True == 1`, `False == 0`). -/
def pyBool (b : Bool) : Int := if b then 1 else 0

/-- Python truthiness of a value (`if x:`). -/
def pyTruthy : Json → Bool
  | .null => false
  | .bool b => b
  | .num n => !(n == 0)
  | .str s => !(s == "")
  | .arr items => !items.isEmpty
  | .obj fields => !fields.isEmpty

/-- `isinstance(x, str)`. -/
def isStrV : Json → Bool
  | .str _ => true
  | _ => false

/--
`validate_username(username)` from the source:
raises `ValidationError("Username must be a non-empty string")` when
`not username or not isinstance(username, str)`, otherwise returns `None`.
-/
def validate_username (username : Json) : Except PyExn Unit :=
  if !(pyTruthy username) || !(isStrV username) then
    .error (.validationError "Username must be a non-empty string")
  else
    .ok ()

/-- Python `d.get(k, dflt)`: looks the key up when `d` is a dict,
raises `AttributeError` on any non-dict value. -/
def dictGet (j : Json) (k : String) (dflt : Json) : Except PyExn Json :=
  match j with
  | .obj fields => .ok ((fields.lookup k).getD dflt)
  | _ => .error .attributeError

/-- Python `d.get(k)` (one-argument form, default `None`). -/
def dictGet1 (j : Json) (k : String) : Except PyExn Json :=
  dictGet j k .null

/-- Python `d[k] = v` on a dict: replaces the value when the key is
present, appends the pair otherwise. -/
def dset (d : Dict) (k : String) (v : Json) : Dict :=
  if d.any (fun kv => kv.1 == k) then
    d.map (fun kv => if kv.1 == k then (k, v) else kv)
  else
    d ++ [(k, v)]

/-- Extracts the underlying strings when every element is a Python str. -/
def allStrs : List Json → Option (List String)
  | [] => some []
  | .str s :: rest => (allStrs rest).map (fun ss => s :: ss)
  | _ => none

/-- Python `sep.join(vals)`: concatenates when every element is a str,
raises `TypeError` otherwise. -/
def pyJoin (sep : String) (vals : List Json) : Except PyExn String :=
  match allStrs vals with
  | some ss => .ok (String.intercalate sep ss)
  | none => .error .typeError

/-- The list comprehension
`[badge.get('displayName', 'N/A') for badge in badges.get("badges", [])]`
applied to the badge entries: each entry's display name, defaulting to
the string `"N/A"`; a non-dict entry raises `AttributeError`. -/
def badgeNames : List Json → Except PyExn (List Json)
  | [] => .ok []
  | b :: rest =>
    match dictGet b "displayName" (.str "N/A") with
    | .error e => .error e
    | .ok v =>
      match badgeNames rest with
      | .error e => .error e
      | .ok vs => .ok (v :: vs)

/-- The `user_data` dict literal of `fetch_user_data`, in source order. -/
def baseRecord (u : String) (rating solvedCount ranking : Json) : Dict :=
  [("Username", .str u), ("Rating", rating),
   ("Problems Solved", solvedCount), ("Badges", .str "N/A"),
   ("Ranking", ranking)]

/--
The body of `fetch_user_data` after the three lookups returned:
builds the `user_data` dict (the `.get` calls are evaluated in source
order: `reputation`, `solvedProblem`, `ranking`), then, when
`badges and isinstance(badges.get("badges"), list)`, replaces the
`"Badges"` entry by the comma-joined display names.
-/
def extractRecord (u : String) (profile badgesJ solved : Json) : Except PyExn Dict :=
  match dictGet profile "reputation" (.str "N/A") with
  | .error e => .error e
  | .ok rating =>
    match dictGet solved "solvedProblem" (.str "N/A") with
    | .error e => .error e
    | .ok solvedCount =>
      match dictGet profile "ranking" (.str "N/A") with
      | .error e => .error e
      | .ok ranking =>
        if pyTruthy badgesJ then
          match dictGet1 badgesJ "badges" with
          | .error e => .error e
          | .ok (.arr items) =>
            match badgeNames items with
            | .error e => .error e
            | .ok names =>
              match pyJoin ", " names with
              | .error e => .error e
              | .ok joined =>
                .ok (dset (baseRecord u rating solvedCount ranking) "Badges" (.str joined))
          | .ok _ => .ok (baseRecord u rating solvedCount ranking)
        else .ok (baseRecord u rating solvedCount ranking)

/-- The `try` block of `fetch_user_data`: the three lookups in source
order (`get_profile`, `get_badges`, `get_solved`) followed by record
extraction.  A lookup failure is the `APIError` raised by `_request`. -/
def fetchBody (env : String → Resource → Except String Json) (u : String) :
    Except PyExn Dict :=
  match env u .profile with
  | .error m => .error (.apiError m)
  | .ok profile =>
    match env u .badges with
    | .error m => .error (.apiError m)
    | .ok badgesJ =>
      match env u .solved with
      | .error m => .error (.apiError m)
      | .ok solved => extractRecord u profile badgesJ solved

/--
`fetch_user_data(username)`: constructing `LeetcodeWrapper` validates the
username (outside the `try`), then the `try` block runs; an `APIError` is
re-raised wrapped as
`APIError(f"Failed to fetch data for {username}: {e}")`, any other
exception propagates unchanged.
-/
def fetch_user_data (env : String → Resource → Except String Json)
    (u : String) : Except PyExn Dict :=
  match validate_username (.str u) with
  | .error e => .error e
  | .ok _ =>
    match fetchBody env u with
    | .ok d => .ok d
    | .error (.apiError m) =>
      .error (.apiError ("Failed to fetch data for " ++ u ++ ": " ++ m))
    | .error e => .error e

/--
The collection loop of `main`: one `fetch_user_data` task per username
(the dict of futures is iterated in submission order, and each task's
outcome is deterministic given `env`, so the concurrent run is observably
this sequential fold).  Successes are appended to `results`; `APIError`
and `ValidationError` are reported as per-username failure lines; any
other exception escapes the loop and aborts `main`.
-/
def runBatch (env : String → Resource → Except String Json) :
    List String → Except PyExn (List Dict × List (String × String))
  | [] => .ok ([], [])
  | u :: us =>
    match fetch_user_data env u with
    | .ok d =>
      match runBatch env us with
      | .ok (recs, fails) => .ok (d :: recs, fails)
      | .error e => .error e
    | .error (.apiError m) =>
      match runBatch env us with
      | .ok (recs, fails) =>
        .ok (recs, (u, "Error fetching data for " ++ u ++ ": " ++ m) :: fails)
      | .error e => .error e
    | .error (.validationError m) =>
      match runBatch env us with
      | .ok (recs, fails) =>
        .ok (recs, (u, "Validation error for " ++ u ++ ": " ++ m) :: fails)
      | .error e => .error e
    | .error e => .error e

/-- The `Username` field of a record. -/
def recName (d : Dict) : Json := (d.lookup "Username").getD .null

/-! ### The ranking model (`rank_users`)

`rank_users` calls CPython's `sorted(data, key=..., reverse=True)`, a
stable sort (stable also with `reverse=True`: equal keys keep their
original relative order).  The keys produced by the program are decoded
JSON scalars; CPython's `<` compares numbers with numbers (a `bool` is
the int `1` or `0`) and strings with strings, and raises `TypeError` on
every other combination of these values (in particular `int` vs `str`,
and `None`, lists or dicts on either side are not ordered against the
values this program produces).  `sorted` performs comparisons between
the keys of its elements, so it returns normally exactly when the keys
are all number-like or all strings (or there is at most one element,
when no comparison happens), and raises `TypeError` otherwise. -/

/-- A Python value usable as a numeric sort key: an int, or a bool
(which compares as `1` / `0`). -/
def intLike : Json → Option Int
  | .num n => some n
  | .bool b => some (pyBool b)
  | _ => none

/-- CPython `key(a) >= key(b)` for the key values this program sorts:
numeric on number-like values, lexicographic on strings; `false` on the
unordered combinations (never consulted: `pySortedDesc` raises
`TypeError` before comparing those). -/
def keyGe (a b : Json) : Bool :=
  match intLike a, intLike b with
  | some x, some y => decide (y ≤ x)
  | _, _ =>
    match a, b with
    | .str s, .str t => decide (t ≤ s)
    | _, _ => false

/-- The key lists on which CPython's `sorted` returns normally:
all number-like, or all strings, or too short to compare. -/
def sortable (ks : List Json) : Bool :=
  ks.all (fun k => (intLike k).isSome) || ks.all isStrV || decide (ks.length ≤ 1)

/-- Stable insertion of `x` in front of the first element it is
greater-or-equal to (descending order; `x` stands before the elements
it ties with that were inserted after it). -/
def insertDescG (ge : α → α → Bool) (x : α) : List α → List α
  | [] => [x]
  | y :: ys => if ge x y then x :: y :: ys else y :: insertDescG ge x ys

/-- Stable descending insertion sort. -/
def sortDescG (ge : α → α → Bool) : List α → List α
  | [] => []
  | x :: xs => insertDescG ge x (sortDescG ge xs)

/-- CPython `sorted(l, key=key, reverse=True)`: the stable descending
sort when the keys are comparable, `TypeError` otherwise. -/
def pySortedDesc (key : α → Json) (l : List α) : Except PyExn (List α) :=
  if sortable (l.map key) then
    .ok (sortDescG (fun a b => keyGe (key a) (key b)) l)
  else
    .error .typeError

/-- The sort key of the first sort: `x.get("Rating", 0)`. -/
def ratingKey (d : Dict) : Json := (d.lookup "Rating").getD (.num 0)

/-- The sort key of the second sort: `x.get("Problems Solved", 0)`. -/
def solvedKey (d : Dict) : Json := (d.lookup "Problems Solved").getD (.num 0)

/-- `rank_users(data)`: the two views, rating sort evaluated first. -/
def rank_users (data : List Dict) : Except PyExn (List Dict × List Dict) :=
  match pySortedDesc ratingKey data with
  | .error e => .error e
  | .ok byRating =>
    match pySortedDesc solvedKey data with
    | .error e => .error e
    | .ok bySolved => .ok (byRating, bySolved)

/-! ### Well-shaped payloads

`fetch_user_data` catches only `APIError` (and `ValidationError` escapes
before the `try`); payload shapes that make a `.get` or the `join` blow
up (`AttributeError` / `TypeError`) would escape the batch loop.  The
following predicate carves out environments whose successful payloads
are dicts whose badge entries (when the badges field is a list) are
dicts with a string or absent display name — on these every fetch
outcome is a record, an `APIError`, or a `ValidationError`. -/

/-- A badge entry the comprehension and the join handle: a dict whose
`displayName`, if present, is a string. -/
def goodBadgeItemB : Json → Bool
  | .obj fields =>
    match fields.lookup "displayName" with
    | some (.str _) => true
    | some _ => false
    | none => true
  | _ => false

/-- A payload every `.get` in `fetch_user_data` handles. -/
def goodPayloadB : Json → Bool
  | .obj fields =>
    match fields.lookup "badges" with
    | some (.arr items) => items.all goodBadgeItemB
    | _ => true
  | _ => false

/-- A lookup outcome the batch loop handles: any failure, or a
well-shaped payload. -/
def payloadOkB : Except String Json → Bool
  | .error _ => true
  | .ok p => goodPayloadB p

/-- The three per-username lookups. -/
def resources : List Resource := [.profile, .badges, .solved]

/-- Every lookup outcome in the batch is one the loop handles. -/
def wellShaped (env : String → Resource → Except String Json)
    (us : List String) : Bool :=
  us.all (fun u => resources.all (fun r => payloadOkB (env u r)))

/-- Whether an `Except` is a success. -/
def isOkB : Except ε α → Bool
  | .ok _ => true
  | .error _ => false

/-! ### Sample environments and records used by the concrete theorems -/

/-- All three lookups fail. -/
def envAllDown : String → Resource → Except String Json := fun _ _ => .error "down"

/-- The spec's "carol" scenario: reputation 1500, ranking 200,
solvedProblem 340, two badges named Guardian and Annual Badge. -/
def envCarol : String → Resource → Except String Json := fun _ r =>
  match r with
  | .profile => .ok (.obj [("reputation", .num 1500), ("ranking", .num 200)])
  | .badges => .ok (.obj [("badges", .arr
      [.obj [("displayName", .str "Guardian")],
       .obj [("displayName", .str "Annual Badge")]])])
  | .solved => .ok (.obj [("solvedProblem", .num 340)])

/-- Like `envCarol` but the second badge entry has no display name. -/
def envCarolMissingName : String → Resource → Except String Json := fun _ r =>
  match r with
  | .profile => .ok (.obj [("reputation", .num 1500), ("ranking", .num 200)])
  | .badges => .ok (.obj [("badges", .arr
      [.obj [("displayName", .str "Guardian")], .obj [("level", .num 3)]])])
  | .solved => .ok (.obj [("solvedProblem", .num 340)])

/-- Profile and SolvedCount lookups succeed, the Badges lookup fails. -/
def envBadgeFailure : String → Resource → Except String Json := fun _ r =>
  match r with
  | .profile => .ok (.obj [("reputation", .num 10), ("ranking", .num 3)])
  | .badges => .error "badge boom"
  | .solved => .ok (.obj [("solvedProblem", .num 5)])

/-- All lookups succeed but the badges payload has no badges list. -/
def envBadgePayload : String → Resource → Except String Json := fun _ r =>
  match r with
  | .profile => .ok (.obj [("reputation", .num 10)])
  | .badges => .ok (.obj [("message", .str "no badges")])
  | .solved => .ok (.obj [])

/-- Profile payload has neither reputation nor ranking, so the record
carries the "N/A" sentinel in its numeric fields. -/
def envDave : String → Resource → Except String Json := fun _ r =>
  match r with
  | .profile => .ok (.obj [])
  | .badges => .ok (.obj [])
  | .solved => .ok (.obj [("solvedProblem", .num 10)])

/-- A record with available numeric fields (what `fetch_user_data`
returns for "carol" under `envCarol`). -/
def recCarol : Dict :=
  [("Username", .str "carol"), ("Rating", .num 1500),
   ("Problems Solved", .num 340), ("Badges", .str "Guardian, Annual Badge"),
   ("Ranking", .num 200)]

/-- A record whose Rating carries the "N/A" sentinel (what
`fetch_user_data` returns for "dave" under `envDave`). -/
def recDave : Dict :=
  [("Username", .str "dave"), ("Rating", .str "N/A"),
   ("Problems Solved", .num 10), ("Badges", .str "N/A"),
   ("Ranking", .str "N/A")]

/-- Two records with equal Rating and equal Problems Solved. -/
def recTieA : Dict :=
  [("Username", .str "a"), ("Rating", .num 7), ("Problems Solved", .num 3),
   ("Badges", .str "N/A"), ("Ranking", .num 1)]

/-- See `recTieA`. -/
def recTieB : Dict :=
  [("Username", .str "b"), ("Rating", .num 7), ("Problems Solved", .num 3),
   ("Badges", .str "N/A"), ("Ranking", .num 2)]

/-! ### Lemmas about the comparator -/

theorem keyGe_intLike {a b : Json} {x y : Int} (ha : intLike a = some x)
    (hb : intLike b = some y) : keyGe a b = decide (y ≤ x) := by
  unfold keyGe
  rw [ha, hb]

theorem keyGe_str (s t : String) : keyGe (.str s) (.str t) = decide (t ≤ s) := rfl

theorem intLike_ne_str {a : Json} {x : Int} (ha : intLike a = some x) :
    ∀ s, a ≠ .str s := by
  cases a <;> simp_all [intLike]

theorem keyGe_true_elim {a b : Json} (h : keyGe a b = true) :
    (∃ x y, intLike a = some x ∧ intLike b = some y ∧ y ≤ x) ∨
      (∃ s t, a = .str s ∧ b = .str t ∧ t ≤ s) := by
  cases a <;> cases b <;> simp_all [keyGe, intLike]

theorem keyGe_trans {a b c : Json} (h1 : keyGe a b = true)
    (h2 : keyGe b c = true) : keyGe a c = true := by
  rcases keyGe_true_elim h1 with ⟨x, y, hA, hB, hxy⟩ | ⟨s, t, hA, hB, hst⟩
  · rcases keyGe_true_elim h2 with ⟨y2, z, hB2, hC, hyz⟩ | ⟨s, t, hB2, hC, hst⟩
    · rw [hB] at hB2
      cases hB2
      rw [keyGe_intLike hA hC]
      simpa using le_trans hyz hxy
    · exact absurd hB2 (intLike_ne_str hB s)
  · rcases keyGe_true_elim h2 with ⟨y2, z, hB2, hC, hyz⟩ | ⟨s2, t2, hB2, hC, hst2⟩
    · subst hB
      exact absurd hB2 (by simp [intLike])
    · subst hA; subst hC
      rw [hB] at hB2
      cases hB2
      rw [keyGe_str]
      simpa using le_trans hst2 hst

theorem keyGe_total_int {a b : Json} {x y : Int} (ha : intLike a = some x)
    (hb : intLike b = some y) : keyGe a b = true ∨ keyGe b a = true := by
  rw [keyGe_intLike ha hb, keyGe_intLike hb ha]
  rcases le_total x y with h | h
  · exact Or.inr (by simpa using h)
  · exact Or.inl (by simpa using h)

theorem keyGe_total_str (s t : String) :
    keyGe (.str s) (.str t) = true ∨ keyGe (.str t) (.str s) = true := by
  rw [keyGe_str, keyGe_str]
  rcases le_total s t with h | h
  · exact Or.inr (by simpa using h)
  · exact Or.inl (by simpa using h)

theorem isStrV_elim {a : Json} (h : isStrV a = true) : ∃ s, a = .str s := by
  cases a <;> simp_all [isStrV]

/-! ### Lemmas about the stable descending insertion sort -/

theorem insertDescG_perm (ge : α → α → Bool) (x : α) (l : List α) :
    (insertDescG ge x l).Perm (x :: l) := by
  induction l with
  | nil => exact List.Perm.refl _
  | cons y ys ih =>
    unfold insertDescG
    split
    · exact List.Perm.refl _
    · exact (List.Perm.cons y ih).trans (List.Perm.swap x y ys)

theorem sortDescG_perm (ge : α → α → Bool) (l : List α) :
    (sortDescG ge l).Perm l := by
  induction l with
  | nil => exact List.Perm.refl _
  | cons x xs ih =>
    exact (insertDescG_perm ge x (sortDescG ge xs)).trans (List.Perm.cons x ih)

theorem mem_sortDescG {ge : α → α → Bool} {l : List α} {x : α}
    (h : x ∈ sortDescG ge l) : x ∈ l :=
  (sortDescG_perm ge l).mem_iff.mp h

theorem insertDescG_head {ge : α → α → Bool} {x z : α} {l : List α}
    (h : (insertDescG ge x l).head? = some z) : z = x ∨ l.head? = some z := by
  cases l with
  | nil => simp [insertDescG] at h; exact Or.inl h.symm
  | cons y ys =>
    unfold insertDescG at h
    split at h
    · simp at h; exact Or.inl h.symm
    · simp at h; exact Or.inr (by simp [h])

theorem chain_insertDescG {ge : α → α → Bool} {x : α} {l : List α}
    (hl : l.Chain' (fun a b => ge a b = true))
    (htot : ∀ y ∈ l, ge x y = true ∨ ge y x = true) :
    (insertDescG ge x l).Chain' (fun a b => ge a b = true) := by
  induction l with
  | nil => simp [insertDescG]
  | cons y ys ih =>
    unfold insertDescG
    split
    · next hxy => exact List.chain'_cons.mpr ⟨hxy, hl⟩
    · next hxy =>
      have hyx : ge y x = true := by
        rcases htot y (List.mem_cons_self _ _) with h | h
        · exact absurd h hxy
        · exact h
      have htail : (insertDescG ge x ys).Chain' (fun a b => ge a b = true) :=
        ih hl.tail (fun z hz => htot z (List.mem_cons_of_mem y hz))
      refine List.chain'_cons'.mpr ⟨?_, htail⟩
      intro z hz
      rcases insertDescG_head hz with hzx | hzy
      · rw [hzx]; exact hyx
      · exact (List.chain'_cons'.mp hl).1 z hzy

theorem chain_sortDescG {ge : α → α → Bool} {l : List α}
    (htot : ∀ x ∈ l, ∀ y ∈ l, ge x y = true ∨ ge y x = true) :
    (sortDescG ge l).Chain' (fun a b => ge a b = true) := by
  induction l with
  | nil => simp [sortDescG]
  | cons x xs ih =>
    unfold sortDescG
    refine chain_insertDescG
      (ih (fun a ha b hb =>
        htot a (List.mem_cons_of_mem x ha) b (List.mem_cons_of_mem x hb))) ?_
    intro y hy
    exact htot x (List.mem_cons_self _ _) y (List.mem_cons_of_mem x (mem_sortDescG hy))

theorem sortDescG_of_chain {ge : α → α → Bool} {l : List α}
    (hl : l.Chain' (fun a b => ge a b = true)) : sortDescG ge l = l := by
  induction l with
  | nil => rfl
  | cons x xs ih =>
    unfold sortDescG
    rw [ih hl.tail]
    cases xs with
    | nil => rfl
    | cons y ys =>
      unfold insertDescG
      rw [if_pos (List.chain'_cons.mp hl).1]

theorem filter_insertDescG_pos {ge : α → α → Bool} {p : α → Bool} {x : α}
    {l : List α} (hx : p x = true) (h : ∀ y ∈ l, p y = true → ge x y = true) :
    (insertDescG ge x l).filter p = x :: l.filter p := by
  induction l with
  | nil => simp [insertDescG, hx]
  | cons y ys ih =>
    unfold insertDescG
    split
    · simp [hx]
    · next hxy =>
      have hy : p y = false := by
        cases hpy : p y
        · rfl
        · exact absurd (h y (List.mem_cons_self _ _) hpy) hxy
      have := ih (fun z hz hpz => h z (List.mem_cons_of_mem y hz) hpz)
      simp [hy, this]

theorem filter_insertDescG_neg {ge : α → α → Bool} {p : α → Bool} {x : α}
    {l : List α} (hx : p x = false) :
    (insertDescG ge x l).filter p = l.filter p := by
  induction l with
  | nil => simp [insertDescG, hx]
  | cons y ys ih =>
    unfold insertDescG
    split
    · simp [hx]
    · cases hy : p y <;> simp [hy, ih]

theorem filter_sortDescG {ge : α → α → Bool} {p : α → Bool} {l : List α}
    (hp : ∀ x ∈ l, ∀ y ∈ l, p x = true → p y = true → ge x y = true) :
    (sortDescG ge l).filter p = l.filter p := by
  induction l with
  | nil => rfl
  | cons x xs ih =>
    unfold sortDescG
    have ihx := ih (fun a ha b hb =>
      hp a (List.mem_cons_of_mem x ha) b (List.mem_cons_of_mem x hb))
    cases hx : p x
    · rw [filter_insertDescG_neg hx, ihx]
      simp [hx]
    · rw [filter_insertDescG_pos hx
        (fun y hy hpy =>
          hp x (List.mem_cons_self _ _) y (List.mem_cons_of_mem x (mem_sortDescG hy)) hx hpy),
        ihx]
      simp [hx]

theorem sortDescG_short {ge : α → α → Bool} {l : List α}
    (h : l.length ≤ 1) : sortDescG ge l = l := by
  cases l with
  | nil => rfl
  | cons x xs =>
    cases xs with
    | nil => rfl
    | cons y ys => simp at h

/-! ### Lemmas about the modelled `sorted(..., reverse=True)` call -/

theorem pySortedDesc_ok_elim {key : α → Json} {l out : List α}
    (h : pySortedDesc key l = .ok out) :
    sortable (l.map key) = true ∧
      out = sortDescG (fun a b => keyGe (key a) (key b)) l := by
  unfold pySortedDesc at h
  split at h
  · next hs => exact ⟨hs, by injection h with h2; exact h2.symm⟩
  · cases h

theorem sortable_elim {key : α → Json} {l : List α}
    (h : sortable (l.map key) = true) :
    (∀ x ∈ l, (intLike (key x)).isSome = true) ∨
      (∀ x ∈ l, isStrV (key x) = true) ∨ l.length ≤ 1 := by
  simp only [sortable, Bool.or_eq_true, List.all_eq_true, List.mem_map,
    decide_eq_true_eq, List.length_map] at h
  rcases h with (h | h) | h
  · exact Or.inl (fun x hx => h _ ⟨x, hx, rfl⟩)
  · exact Or.inr (Or.inl (fun x hx => h _ ⟨x, hx, rfl⟩))
  · exact Or.inr (Or.inr h)

theorem pySortedDesc_chain {key : α → Json} {l out : List α}
    (h : pySortedDesc key l = .ok out) :
    out.Chain' (fun a b => keyGe (key a) (key b) = true) := by
  obtain ⟨hs, hout⟩ := pySortedDesc_ok_elim h
  subst hout
  rcases sortable_elim hs with hint | hstr | hshort
  · apply chain_sortDescG
    intro x hx y hy
    obtain ⟨ix, hix⟩ := Option.isSome_iff_exists.mp (hint x hx)
    obtain ⟨iy, hiy⟩ := Option.isSome_iff_exists.mp (hint y hy)
    exact keyGe_total_int hix hiy
  · apply chain_sortDescG
    intro x hx y hy
    obtain ⟨sx, hsx⟩ := isStrV_elim (hstr x hx)
    obtain ⟨sy, hsy⟩ := isStrV_elim (hstr y hy)
    rw [hsx, hsy]
    exact keyGe_total_str sx sy
  · rw [sortDescG_short hshort]
    cases l with
    | nil => simp
    | cons x xs =>
      cases xs with
      | nil => simp
      | cons y ys => simp at hshort

theorem pySortedDesc_perm {key : α → Json} {l out : List α}
    (h : pySortedDesc key l = .ok out) : out.Perm l := by
  obtain ⟨hs, hout⟩ := pySortedDesc_ok_elim h
  subst hout
  exact sortDescG_perm _ _

theorem pySortedDesc_stable {key : α → Json} {l out : List α}
    (h : pySortedDesc key l = .ok out) (v : Json) :
    out.filter (fun d => keyGe (key d) v && keyGe v (key d)) =
      l.filter (fun d => keyGe (key d) v && keyGe v (key d)) := by
  obtain ⟨hs, hout⟩ := pySortedDesc_ok_elim h
  subst hout
  apply filter_sortDescG
  intro x hx y hy hpx hpy
  simp only [Bool.and_eq_true] at hpx hpy
  exact keyGe_trans hpx.1 hpy.2

theorem sortable_of_perm {ks ks' : List Json} (hp : ks'.Perm ks)
    (h : sortable ks = true) : sortable ks' = true := by
  simp only [sortable, Bool.or_eq_true, List.all_eq_true,
    decide_eq_true_eq] at h ⊢
  rcases h with (h | h) | h
  · exact Or.inl (Or.inl (fun x hx => h x (hp.mem_iff.mp hx)))
  · exact Or.inl (Or.inr (fun x hx => h x (hp.mem_iff.mp hx)))
  · exact Or.inr (hp.length_eq ▸ h)

theorem pySortedDesc_idem {key : α → Json} {l out : List α}
    (h : pySortedDesc key l = .ok out) : pySortedDesc key out = .ok out := by
  obtain ⟨hs, hout⟩ := pySortedDesc_ok_elim h
  have hperm : (out.map key).Perm (l.map key) := by
    subst hout
    exact (sortDescG_perm _ _).map key
  have hchain := pySortedDesc_chain h
  unfold pySortedDesc
  rw [if_pos (sortable_of_perm hperm hs), sortDescG_of_chain hchain]

theorem pySortedDesc_ok_of_perm {key : α → Json} {l l2 out : List α}
    (hp : l2.Perm l) (h : pySortedDesc key l = .ok out) :
    pySortedDesc key l2 = .ok (sortDescG (fun a b => keyGe (key a) (key b)) l2) := by
  obtain ⟨hs, _⟩ := pySortedDesc_ok_elim h
  unfold pySortedDesc
  rw [if_pos (sortable_of_perm (hp.map key) hs)]

theorem rank_users_ok_elim {data br bs : List Dict}
    (h : rank_users data = .ok (br, bs)) :
    pySortedDesc ratingKey data = .ok br ∧
      pySortedDesc solvedKey data = .ok bs := by
  unfold rank_users at h
  split at h
  · cases h
  · next h1 =>
    split at h
    · cases h
    · next h2 =>
      injection h with h3
      rw [Prod.mk.injEq] at h3
      rw [h1, h2, h3.1, h3.2]
      exact ⟨rfl, rfl⟩

/-! ### Lemmas about validation and aggregation -/

theorem validate_cases (j : Json) :
    validate_username j = .ok () ∨
      validate_username j =
        .error (.validationError "Username must be a non-empty string") := by
  unfold validate_username
  split
  · exact Or.inr rfl
  · exact Or.inl rfl

theorem validate_str_ok {u : String} (hu : u ≠ "") :
    validate_username (.str u) = .ok () := by
  unfold validate_username
  rw [if_neg]
  simp [pyTruthy, isStrV, hu]

theorem dictGet_obj (fs : Dict) (k : String) (dflt : Json) :
    dictGet (.obj fs) k dflt = .ok ((fs.lookup k).getD dflt) := rfl

theorem dset_baseRecord (u : String) (r sc rk v : Json) :
    dset (baseRecord u r sc rk) "Badges" v =
      [("Username", .str u), ("Rating", r), ("Problems Solved", sc),
       ("Badges", v), ("Ranking", rk)] := rfl

theorem extractRecord_ok_shape {u : String} {p b s : Json} {d : Dict}
    (h : extractRecord u p b s = .ok d) :
    d.map Prod.fst =
        ["Username", "Rating", "Problems Solved", "Badges", "Ranking"] ∧
      d.lookup "Username" = some (.str u) := by
  unfold extractRecord at h
  repeat' split at h
  all_goals cases h
  all_goals exact ⟨rfl, rfl⟩

theorem fetchBody_ok_elim {env : String → Resource → Except String Json}
    {u : String} {d : Dict} (h : fetchBody env u = .ok d) :
    ∃ p b s, env u .profile = .ok p ∧ env u .badges = .ok b ∧
      env u .solved = .ok s ∧ extractRecord u p b s = .ok d := by
  unfold fetchBody at h
  split at h
  · cases h
  · next p hp =>
    split at h
    · cases h
    · next b hb =>
      split at h
      · cases h
      · next s hs => exact ⟨p, b, s, hp, hb, hs, h⟩

theorem fetch_ok_shape {env : String → Resource → Except String Json}
    {u : String} {d : Dict} (h : fetch_user_data env u = .ok d) :
    d.map Prod.fst =
        ["Username", "Rating", "Problems Solved", "Badges", "Ranking"] ∧
      d.lookup "Username" = some (.str u) := by
  unfold fetch_user_data at h
  split at h
  · cases h
  · split at h
    · next hbody =>
      injection h with h2
      subst h2
      obtain ⟨p, b, s, _, _, _, hex⟩ := fetchBody_ok_elim hbody
      exact extractRecord_ok_shape hex
    · cases h
    · cases h

theorem fetch_ok_username {env : String → Resource → Except String Json}
    {u : String} {d : Dict} (h : fetch_user_data env u = .ok d) :
    recName d = .str u := by
  unfold recName
  rw [(fetch_ok_shape h).2]
  rfl

theorem goodPayload_obj {p : Json} (h : goodPayloadB p = true) :
    ∃ fs, p = .obj fs := by
  cases p <;> simp_all [goodPayloadB]

theorem allStrs_map (ss : List String) :
    allStrs (ss.map Json.str) = some ss := by
  induction ss with
  | nil => rfl
  | cons s rest ih => simp [allStrs, ih]

theorem pyJoin_strs (sep : String) (ss : List String) :
    pyJoin sep (ss.map Json.str) = .ok (String.intercalate sep ss) := by
  unfold pyJoin
  rw [allStrs_map]

theorem badgeNames_total {items : List Json}
    (h : items.all goodBadgeItemB = true) :
    ∃ ss : List String, badgeNames items = .ok (ss.map Json.str) := by
  induction items with
  | nil => exact ⟨[], rfl⟩
  | cons b bs ih =>
    rw [List.all_cons, Bool.and_eq_true] at h
    obtain ⟨ss, hss⟩ := ih h.2
    have hb := h.1
    cases b with
    | obj fields =>
      unfold badgeNames
      rw [dictGet_obj, hss]
      cases hlk : fields.lookup "displayName" with
      | none =>
        refine ⟨"N/A" :: ss, ?_⟩
        simp [hlk]
      | some v =>
        simp only [goodBadgeItemB, hlk] at hb
        cases v <;> simp_all
        next s => exact ⟨s :: ss, by simp [hlk]⟩
    | null => simp [goodBadgeItemB] at hb
    | bool => simp [goodBadgeItemB] at hb
    | num => simp [goodBadgeItemB] at hb
    | str => simp [goodBadgeItemB] at hb
    | arr => simp [goodBadgeItemB] at hb

theorem extractRecord_total {u : String} {p b s : Json}
    (hp : goodPayloadB p = true) (hb : goodPayloadB b = true)
    (hs : goodPayloadB s = true) :
    ∃ d, extractRecord u p b s = .ok d := by
  obtain ⟨pf, rfl⟩ := goodPayload_obj hp
  obtain ⟨sf, rfl⟩ := goodPayload_obj hs
  obtain ⟨bf, rfl⟩ := goodPayload_obj hb
  unfold extractRecord
  simp only [dictGet_obj]
  by_cases ht : pyTruthy (.obj bf) = true
  · rw [if_pos ht]
    unfold dictGet1
    simp only [dictGet_obj]
    cases hlk : bf.lookup "badges" with
    | none =>
      simp only [hlk, Option.getD_none]
      exact ⟨_, rfl⟩
    | some w =>
      cases w with
      | arr items =>
        simp only [goodPayloadB, hlk] at hb
        obtain ⟨ss, hbn⟩ := badgeNames_total hb
        simp only [hlk, Option.getD_some, hbn, pyJoin_strs]
        exact ⟨_, rfl⟩
      | null =>
        simp only [hlk, Option.getD_some]
        exact ⟨_, rfl⟩
      | bool bb =>
        simp only [hlk, Option.getD_some]
        exact ⟨_, rfl⟩
      | num n =>
        simp only [hlk, Option.getD_some]
        exact ⟨_, rfl⟩
      | str s2 =>
        simp only [hlk, Option.getD_some]
        exact ⟨_, rfl⟩
      | obj fs2 =>
        simp only [hlk, Option.getD_some]
        exact ⟨_, rfl⟩
  · rw [if_neg ht]
    exact ⟨_, rfl⟩

theorem fetchBody_classify {env : String → Resource → Except String Json}
    {u : String} (hp : payloadOkB (env u .profile) = true)
    (hb : payloadOkB (env u .badges) = true)
    (hs : payloadOkB (env u .solved) = true) :
    (∃ d, fetchBody env u = .ok d) ∨
      (∃ m, fetchBody env u = .error (.apiError m)) := by
  unfold fetchBody
  cases h1 : env u .profile with
  | error m => exact Or.inr ⟨m, rfl⟩
  | ok p =>
    rw [h1] at hp
    cases h2 : env u .badges with
    | error m => exact Or.inr ⟨m, rfl⟩
    | ok b =>
      rw [h2] at hb
      cases h3 : env u .solved with
      | error m => exact Or.inr ⟨m, rfl⟩
      | ok s =>
        rw [h3] at hs
        obtain ⟨d, hd⟩ :=
          extractRecord_total (u := u) (by simpa [payloadOkB] using hp)
            (by simpa [payloadOkB] using hb) (by simpa [payloadOkB] using hs)
        exact Or.inl ⟨d, hd⟩

theorem fetch_classify {env : String → Resource → Except String Json}
    {u : String} (hp : payloadOkB (env u .profile) = true)
    (hb : payloadOkB (env u .badges) = true)
    (hs : payloadOkB (env u .solved) = true) :
    (∃ d, fetch_user_data env u = .ok d) ∨
      (∃ m, fetch_user_data env u = .error (.apiError m)) ∨
      (∃ m, fetch_user_data env u = .error (.validationError m)) := by
  rcases validate_cases (.str u) with hval | hval
  · rcases fetchBody_classify hp hb hs with ⟨d, hd⟩ | ⟨m, hm⟩
    · refine Or.inl ⟨d, ?_⟩
      unfold fetch_user_data
      rw [hval, hd]
    · refine Or.inr (Or.inl ⟨"Failed to fetch data for " ++ u ++ ": " ++ m, ?_⟩)
      unfold fetch_user_data
      rw [hval, hm]
  · refine Or.inr (Or.inr ⟨"Username must be a non-empty string", ?_⟩)
    unfold fetch_user_data
    rw [hval]

theorem isOkB_elim {e : Except ε α} (h : isOkB e = true) : ∃ a, e = .ok a := by
  cases e with
  | ok a => exact ⟨a, rfl⟩
  | error => simp [isOkB] at h

theorem runBatch_completes {env : String → Resource → Except String Json}
    {us : List String} (h : wellShaped env us = true) :
    isOkB (runBatch env us) = true := by
  induction us with
  | nil => rfl
  | cons u us ih =>
    unfold wellShaped at h
    rw [List.all_cons, Bool.and_eq_true] at h
    have hres := h.1
    simp only [resources, List.all_cons, List.all_nil, Bool.and_eq_true,
      Bool.and_true] at hres
    have htail : isOkB (runBatch env us) = true := by
      apply ih
      unfold wellShaped
      exact h.2
    obtain ⟨⟨recs, fails⟩, hr⟩ := isOkB_elim htail
    rcases fetch_classify hres.1 hres.2.1 hres.2.2 with
      ⟨d, hd⟩ | ⟨m, hm⟩ | ⟨m, hm⟩
    · unfold runBatch
      rw [hd, hr]
      rfl
    · unfold runBatch
      rw [hm, hr]
      rfl
    · unfold runBatch
      rw [hm, hr]
      rfl

theorem runBatch_account {env : String → Resource → Except String Json} :
    ∀ {us : List String} {recs : List Dict} {fails : List (String × String)},
      runBatch env us = .ok (recs, fails) →
      recs.length + fails.length = us.length ∧
        (recs.map recName ++ fails.map (fun f => Json.str f.1)).Perm
          (us.map Json.str) := by
  intro us
  induction us with
  | nil =>
    intro recs fails h
    unfold runBatch at h
    injection h with h2
    rw [Prod.mk.injEq] at h2
    rw [← h2.1, ← h2.2]
    exact ⟨rfl, List.Perm.refl _⟩
  | cons u us ih =>
    intro recs fails h
    unfold runBatch at h
    split at h
    · next d hd =>
      split at h
      · next r f hr =>
        injection h with h2
        rw [Prod.mk.injEq] at h2
        obtain ⟨hrecs, hfails⟩ := h2
        subst hrecs; subst hfails
        obtain ⟨hlen, hperm⟩ := ih hr
        constructor
        · simp only [List.length_cons]
          omega
        · simp only [List.map_cons, List.cons_append, List.map_cons]
          rw [fetch_ok_username hd]
          exact hperm.cons _
      · cases h
    · next m hd =>
      split at h
      · next r f hr =>
        injection h with h2
        rw [Prod.mk.injEq] at h2
        obtain ⟨hrecs, hfails⟩ := h2
        subst hrecs; subst hfails
        obtain ⟨hlen, hperm⟩ := ih hr
        constructor
        · simp only [List.length_cons]
          omega
        · simp only [List.map_cons]
          exact List.perm_middle.trans (hperm.cons _)
      · cases h
    · next m hd =>
      split at h
      · next r f hr =>
        injection h with h2
        rw [Prod.mk.injEq] at h2
        obtain ⟨hrecs, hfails⟩ := h2
        subst hrecs; subst hfails
        obtain ⟨hlen, hperm⟩ := ih hr
        constructor
        · simp only [List.length_cons]
          omega
        · simp only [List.map_cons]
          exact List.perm_middle.trans (hperm.cons _)
      · cases h
    · cases h

/-! ### The claims -/

/-- Claim C1: for every valid non-empty username list whose lookup
outcomes are shapes the loop handles, the batch completes, and it
accounts for every identity exactly once: successful records plus
recorded failures equal the input count, and the multiset of usernames
covered by records and failures is exactly the input multiset — no
identity is silently dropped. -/
theorem claim_C1_batch_accounting (env : String → Resource → Except String Json)
    (us : List String) (_hne : us ≠ []) (hws : wellShaped env us = true) :
    isOkB (runBatch env us) = true ∧
      ∀ recs fails, runBatch env us = .ok (recs, fails) →
        recs.length + fails.length = us.length ∧
          (recs.map recName ++ fails.map (fun f => Json.str f.1)).Perm
            (us.map Json.str) := by
  refine ⟨runBatch_completes hws, ?_⟩
  intro recs fails h
  exact runBatch_account h

/-- Witness for C1 at the concrete environment where every lookup
fails and the single username "alice": the batch completes with zero
records and one recorded failure. -/
theorem claim_C1_batch_accounting_witness :
    isOkB (runBatch envAllDown ["alice"]) = true ∧
      ([] : List Dict).length +
          [("alice",
            "Error fetching data for alice: Failed to fetch data for alice: down")].length
        = (["alice"] : List String).length ∧
      (([] : List Dict).map recName ++
          [("alice",
            "Error fetching data for alice: Failed to fetch data for alice: down")].map
            (fun f => Json.str f.1)).Perm ((["alice"] : List String).map Json.str) := by
  have h := claim_C1_batch_accounting envAllDown ["alice"] (by simp) (by rfl)
  have h2 := h.2 []
    [("alice",
      "Error fetching data for alice: Failed to fetch data for alice: down")] (by rfl)
  exact ⟨h.1, h2.1, h2.2⟩

/-- Claim C2, counterexample: under `envBadgeFailure` the Profile and
SolvedCount lookups succeed and the Badges lookup fails, yet
`fetch_user_data` does not return a record with an empty badge
sequence — it fails with the wrapped `APIError`, because the Badges
call sits inside the same `try` block as the mandatory lookups. -/
theorem claim_C2_counterexample :
    fetch_user_data envBadgeFailure "erin" =
      .error (.apiError "Failed to fetch data for erin: badge boom") := rfl

/-- Claim C2 as amended: a failed Badges *lookup* is fatal (see the
counterexample); what is non-fatal is a Badges lookup that *succeeds*
with a payload that is falsy or whose badges field is missing or not a
list — then aggregation returns the record with the `"N/A"` badges
placeholder. -/
theorem claim_C2_amended (env : String → Resource → Except String Json)
    (u : String) (pf sf : Dict) (b : Json) (hu : u ≠ "")
    (hp : env u .profile = .ok (.obj pf))
    (hb : env u .badges = .ok b)
    (hs : env u .solved = .ok (.obj sf))
    (hbad : pyTruthy b = false ∨
      ∃ bf, b = .obj bf ∧ ∀ items, (bf.lookup "badges").getD .null ≠ .arr items) :
    fetch_user_data env u = .ok
      [("Username", .str u),
       ("Rating", (pf.lookup "reputation").getD (.str "N/A")),
       ("Problems Solved", (sf.lookup "solvedProblem").getD (.str "N/A")),
       ("Badges", .str "N/A"),
       ("Ranking", (pf.lookup "ranking").getD (.str "N/A"))] := by
  unfold fetch_user_data
  rw [validate_str_ok hu]
  unfold fetchBody
  rw [hp, hb, hs]
  unfold extractRecord
  simp only [dictGet_obj]
  rcases hbad with ht | ⟨bf, rfl, harr⟩
  · rw [if_neg (by simp [ht])]
    rfl
  · by_cases ht : pyTruthy (.obj bf) = true
    · rw [if_pos ht]
      unfold dictGet1
      simp only [dictGet_obj]
      cases hv : (bf.lookup "badges").getD .null with
      | arr items => exact absurd hv (harr items)
      | null => rfl
      | bool bb => rfl
      | num n => rfl
      | str s2 => rfl
      | obj fs2 => rfl
    · rw [if_neg ht]
      rfl

/-- Witness for the amended C2 at `envBadgePayload`: all lookups
succeed, the badges payload is a dict with no badges list, and the
record is produced with the `"N/A"` badges placeholder. -/
theorem claim_C2_amended_witness :
    fetch_user_data envBadgePayload "bob" = .ok
      [("Username", .str "bob"),
       ("Rating", ((([("reputation", Json.num 10)]) : Dict).lookup "reputation").getD (.str "N/A")),
       ("Problems Solved", (([] : Dict).lookup "solvedProblem").getD (.str "N/A")),
       ("Badges", .str "N/A"),
       ("Ranking", ((([("reputation", Json.num 10)]) : Dict).lookup "ranking").getD (.str "N/A"))] := by
  exact claim_C2_amended envBadgePayload "bob" [("reputation", Json.num 10)] [] 
    (.obj [("message", .str "no badges")]) (by simp) rfl rfl rfl
    (Or.inr ⟨[("message", .str "no badges")], rfl, fun items h => by cases h⟩)

/-- Claim C3, counterexample: the validator accepts the whitespace-only
username " " (Python truthiness does not strip whitespace), so the
claim that whitespace-only inputs are rejected is false. -/
theorem claim_C3_counterexample : validate_username (.str " ") = .ok () := rfl

/-- Claim C3 as amended: `validate_username` fails with the
`ValidationError` exactly when the input is not a text value or is the
empty string; every other string — including whitespace-only ones — is
accepted. -/
theorem claim_C3_amended (u : Json) :
    (validate_username u =
        .error (.validationError "Username must be a non-empty string") ↔
      (isStrV u = false ∨ u = .str "")) ∧
    (validate_username u = .ok () ↔ (isStrV u = true ∧ u ≠ .str "")) := by
  cases u with
  | str s => by_cases hs : s = "" <;> simp [validate_username, pyTruthy, isStrV, hs]
  | null => simp [validate_username, pyTruthy, isStrV]
  | bool b => simp [validate_username, pyTruthy, isStrV]
  | num n => simp [validate_username, pyTruthy, isStrV]
  | arr items => simp [validate_username, pyTruthy, isStrV]
  | obj fields => simp [validate_username, pyTruthy, isStrV]

/-- Claim C4 is a code bug: `fetch_user_data` itself produces records
whose Rating is the string "N/A" (first conjunct), but ranking a
collection containing such a record together with a numeric one does
not place the unavailable value below the numeric ones — Python's
`sorted` raises `TypeError` comparing `str` with `int`, so no ranked
view is produced at all (second conjunct). -/
theorem claim_C4_unavailable_rank_bug :
    fetch_user_data envDave "dave" = .ok recDave ∧
      rank_users [recCarol, recDave] = .error .typeError := ⟨rfl, rfl⟩

/-- Claim C5: whenever `rank_users` produces its views, each view is
sorted descending by its key (reputation resp. solved count), and ties
are stable: for every key value, the records tied at that value appear
in the view in exactly their original insertion order. -/
theorem claim_C5_stable_descending (data br bs : List Dict)
    (h : rank_users data = .ok (br, bs)) :
    (br.Chain' (fun a b => keyGe (ratingKey a) (ratingKey b) = true) ∧
      ∀ v, br.filter (fun d => keyGe (ratingKey d) v && keyGe v (ratingKey d)) =
        data.filter (fun d => keyGe (ratingKey d) v && keyGe v (ratingKey d))) ∧
    (bs.Chain' (fun a b => keyGe (solvedKey a) (solvedKey b) = true) ∧
      ∀ v, bs.filter (fun d => keyGe (solvedKey d) v && keyGe v (solvedKey d)) =
        data.filter (fun d => keyGe (solvedKey d) v && keyGe v (solvedKey d))) := by
  obtain ⟨h1, h2⟩ := rank_users_ok_elim h
  exact ⟨⟨pySortedDesc_chain h1, fun v => pySortedDesc_stable h1 v⟩,
    ⟨pySortedDesc_chain h2, fun v => pySortedDesc_stable h2 v⟩⟩

/-- Witness for C5 at two records tied on both fields: the view is
sorted and the tie class at rating 7 keeps insertion order. -/
theorem claim_C5_stable_descending_witness :
    ([recTieA, recTieB].Chain'
      (fun a b => keyGe (ratingKey a) (ratingKey b) = true)) ∧
    ([recTieA, recTieB].filter
        (fun d => keyGe (ratingKey d) (Json.num 7) && keyGe (Json.num 7) (ratingKey d)) =
      [recTieA, recTieB].filter
        (fun d => keyGe (ratingKey d) (Json.num 7) && keyGe (Json.num 7) (ratingKey d))) :=
  ⟨(claim_C5_stable_descending [recTieA, recTieB] [recTieA, recTieB]
      [recTieA, recTieB] rfl).1.1,
    (claim_C5_stable_descending [recTieA, recTieB] [recTieA, recTieB]
      [recTieA, recTieB] rfl).1.2 (Json.num 7)⟩

/-- Claim C6: ranking is idempotent per field — re-sorting the
rating-ranked view by rating returns it unchanged, and likewise for the
solved-count view; moreover running `rank_users` on a view reproduces
that view in the same field's position. -/
theorem claim_C6_rank_idempotent (data br bs : List Dict)
    (h : rank_users data = .ok (br, bs)) :
    pySortedDesc ratingKey br = .ok br ∧ pySortedDesc solvedKey bs = .ok bs ∧
      (∃ bs2, rank_users br = .ok (br, bs2)) ∧
      (∃ br2, rank_users bs = .ok (br2, bs)) := by
  obtain ⟨h1, h2⟩ := rank_users_ok_elim h
  have i1 := pySortedDesc_idem h1
  have i2 := pySortedDesc_idem h2
  refine ⟨i1, i2, ?_, ?_⟩
  · have hs := pySortedDesc_ok_of_perm (pySortedDesc_perm h1) h2
    refine ⟨sortDescG (fun a b => keyGe (solvedKey a) (solvedKey b)) br, ?_⟩
    unfold rank_users
    rw [i1, hs]
  · have hr := pySortedDesc_ok_of_perm (pySortedDesc_perm h2) h1
    refine ⟨sortDescG (fun a b => keyGe (ratingKey a) (ratingKey b)) bs, ?_⟩
    unfold rank_users
    rw [hr, i2]

/-- Witness for C6 at two records tied on both fields. -/
theorem claim_C6_rank_idempotent_witness :
    pySortedDesc ratingKey [recTieA, recTieB] = .ok [recTieA, recTieB] ∧
      pySortedDesc solvedKey [recTieA, recTieB] = .ok [recTieA, recTieB] :=
  ⟨(claim_C6_rank_idempotent [recTieA, recTieB] [recTieA, recTieB]
      [recTieA, recTieB] rfl).1,
    (claim_C6_rank_idempotent [recTieA, recTieB] [recTieA, recTieB]
      [recTieA, recTieB] rfl).2.1⟩

/-- Claim C7: the "carol" scenario — reputation 1500, ranking 200,
solvedProblem 340, badges Guardian and Annual Badge — yields the record
with Rating 1500, Ranking 200, Problems Solved 340 and the badge names
"Guardian, Annual Badge" in payload order; and a badge entry without a
display name contributes the literal "N/A" instead of being dropped. -/
theorem claim_C7_carol_scenario :
    fetch_user_data envCarol "carol" = .ok recCarol ∧
      fetch_user_data envCarolMissingName "carol" = .ok
        [("Username", .str "carol"), ("Rating", .num 1500),
         ("Problems Solved", .num 340), ("Badges", .str "Guardian, N/A"),
         ("Ranking", .num 200)] := ⟨rfl, rfl⟩

/-- Claim C8: when the Profile or the SolvedCount lookup fails, the
aggregation for that username fails with the wrapping `APIError`
("Failed to fetch data for ...") whose payload is the message of a
lookup that failed, and no record is produced. -/
theorem claim_C8_mandatory_lookup_failure
    (env : String → Resource → Except String Json) (u : String) (hu : u ≠ "")
    (hfail : (∃ m, env u .profile = .error m) ∨ (∃ m, env u .solved = .error m)) :
    ∃ m, fetch_user_data env u =
        .error (.apiError ("Failed to fetch data for " ++ u ++ ": " ++ m)) ∧
      (env u .profile = .error m ∨ env u .badges = .error m ∨
        env u .solved = .error m) := by
  unfold fetch_user_data
  rw [validate_str_ok hu]
  unfold fetchBody
  cases h1 : env u .profile with
  | error m => exact ⟨m, rfl, Or.inl rfl⟩
  | ok p =>
    cases h2 : env u .badges with
    | error m => exact ⟨m, rfl, Or.inr (Or.inl rfl)⟩
    | ok b =>
      cases h3 : env u .solved with
      | error m => exact ⟨m, rfl, Or.inr (Or.inr rfl)⟩
      | ok s =>
        rcases hfail with ⟨m, hm⟩ | ⟨m, hm⟩
        · rw [h1] at hm; cases hm
        · rw [h3] at hm; cases hm

/-- Witness for C8 at the environment where every lookup fails. -/
theorem claim_C8_mandatory_lookup_failure_witness :
    ∃ m, fetch_user_data envAllDown "alice" =
        .error (.apiError ("Failed to fetch data for " ++ "alice" ++ ": " ++ m)) ∧
      (envAllDown "alice" .profile = .error m ∨
        envAllDown "alice" .badges = .error m ∨
        envAllDown "alice" .solved = .error m) :=
  claim_C8_mandatory_lookup_failure envAllDown "alice" (by simp)
    (Or.inl ⟨"down", rfl⟩)

/-- Claim C9: producing the two ranked views does not disturb the
batch collection — in this embedding of Python's `sorted` (which
allocates a fresh list) each view is computed from the unchanged input
`data` alone, independently of the other, and each view is a
permutation of it. -/
theorem claim_C9_views_nonmutating (data br bs : List Dict)
    (h : rank_users data = .ok (br, bs)) :
    pySortedDesc ratingKey data = .ok br ∧
      pySortedDesc solvedKey data = .ok bs ∧ br.Perm data ∧ bs.Perm data := by
  obtain ⟨h1, h2⟩ := rank_users_ok_elim h
  exact ⟨h1, h2, pySortedDesc_perm h1, pySortedDesc_perm h2⟩

/-- Witness for C9 at a singleton collection. -/
theorem claim_C9_views_nonmutating_witness :
    pySortedDesc ratingKey [recCarol] = .ok [recCarol] ∧
      pySortedDesc solvedKey [recCarol] = .ok [recCarol] ∧
      ([recCarol] : List Dict).Perm [recCarol] ∧
      ([recCarol] : List Dict).Perm [recCarol] :=
  claim_C9_views_nonmutating [recCarol] [recCarol] [recCarol] rfl

/-- Claim C10: every successful record has exactly the five fields
Username, Rating, Problems Solved, Badges, Ranking — in the order the
persistence collaborator expects — and its Username field is the input
username verbatim. -/
theorem claim_C10_record_shape (env : String → Resource → Except String Json)
    (u : String) (d : Dict) (h : fetch_user_data env u = .ok d) :
    d.map Prod.fst =
        ["Username", "Rating", "Problems Solved", "Badges", "Ranking"] ∧
      d.lookup "Username" = some (.str u) :=
  fetch_ok_shape h

/-- Witness for C10 at the "carol" scenario. -/
theorem claim_C10_record_shape_witness :
    recCarol.map Prod.fst =
        ["Username", "Rating", "Problems Solved", "Badges", "Ranking"] ∧
      recCarol.lookup "Username" = some (.str "carol") :=
  claim_C10_record_shape envCarol "carol" recCarol rfl

end LeetProfile
